import Mathlib

/-
Shallow embedding of src/kubernetes/workspace_controller/services/workspace_initializer.py
(class WorkspaceInitializer). Pure computations (strings, label maps, generated
scripts) are translated directly; calls to the cluster API are abstracted as
oracles giving the outcome of each call, and the control flow of the Python
methods (try/except, early return, the bounded poll loop) is translated into
explicit state passing over those oracles.
-/

namespace WorkspaceInit

/-! ### Subdomain generation (_generate_random_subdomain, lines 29-32) -/

/-- The character pool string.ascii_lowercase + string.digits. -/
def subdomain_letters : List Char :=
  "abcdefghijklmnopqrstuvwxyz0123456789".data

/-- _generate_random_subdomain: joins length-many random choices from the pool.
The call random.choice(letters) is abstracted as an oracle giving the index
chosen at each position. The Python default for length is 8, and
initialize_workspace calls it with that default. -/
def generate_random_subdomain (choice : Nat → Fin subdomain_letters.length)
    (length : Nat) : String :=
  String.mk ((List.range length).map (fun i => subdomain_letters.get (choice i)))

/-! ### Image build destinations (lines 584-651, 1227-1252)

The destination tags and the BASE_IMAGE reference are inline f-strings in
_create_base_image_kaniko_container, _create_wrapper_kaniko_container and
_create_wrapper_dockerfile; each is translated literally. -/

/-- Destination tag of the base (user) image build, line 592. -/
def base_image_destination (awsAccountId namespaceName buildTimestamp : String) : String :=
  awsAccountId ++ ".dkr.ecr.us-east-1.amazonaws.com/workspace-images:custom-user-"
    ++ namespaceName ++ "-" ++ buildTimestamp

/-- Destination tag of the wrapper image build, line 623. -/
def wrapper_image_destination (awsAccountId namespaceName buildTimestamp : String) : String :=
  awsAccountId ++ ".dkr.ecr.us-east-1.amazonaws.com/workspace-images:custom-wrapper-"
    ++ namespaceName ++ "-" ++ buildTimestamp

/-- The BASE_IMAGE environment variable of the wrapper kaniko container, line 636. -/
def wrapper_base_image_env (awsAccountId namespaceName buildTimestamp : String) : String :=
  awsAccountId ++ ".dkr.ecr.us-east-1.amazonaws.com/workspace-images:custom-user-"
    ++ namespaceName ++ "-" ++ buildTimestamp

/-- The FROM line of the generated wrapper Dockerfile, line 1230. -/
def wrapper_dockerfile_from_line (awsAccountId namespaceName buildTimestamp : String) : String :=
  "FROM " ++ awsAccountId ++ ".dkr.ecr.us-east-1.amazonaws.com/workspace-images:custom-user-"
    ++ namespaceName ++ "-" ++ buildTimestamp

/-- Image of the code-server runtime container, line 651. -/
def code_server_image (awsAccountId namespaceName buildTimestamp : String) : String :=
  awsAccountId ++ ".dkr.ecr.us-east-1.amazonaws.com/workspace-images:custom-wrapper-"
    ++ namespaceName ++ "-" ++ buildTimestamp

/-! ### Kubernetes API failure model -/

/-- Outcome of a failing Kubernetes API call: either an ApiException carrying a
status code (the only class caught by the poll loop, line 514) or any other
exception. -/
inductive K8sError where
  | apiException (status : Nat)
  | otherError
deriving DecidableEq

/-! ### The namespace-deletion poll loop (lines 507-516)

  max_retries = 30
  while max_retries > 0:
      try:
          self.core_v1.read_namespace(...)
          time.sleep(1)
          max_retries -= 1
      except client.exceptions.ApiException as e:
          if e.status == 404:
              break

The loop is translated with explicit fuel: fuelOut means the Python loop has
not yet exited after that many iterations. Note that a read failing with a
non-404 ApiException neither breaks nor decrements max_retries. -/

inductive PollOutcome where
  | finished (retriesLeft : Nat)
  | raised (e : K8sError)
  | fuelOut
deriving DecidableEq

/-- One-to-one translation of the while loop; arguments after the read oracle
are fuel, the index of the next read call, and max_retries. -/
def poll_namespace_deleted (read : Nat → Except K8sError Unit) :
    Nat → Nat → Nat → PollOutcome
  | 0, _, _ => .fuelOut
  | fuel+1, i, r =>
    if r = 0 then .finished 0
    else
      match read i with
      | .ok _ => poll_namespace_deleted read fuel (i+1) (r-1)
      | .error (.apiException s) =>
        if s = 404 then .finished r else poll_namespace_deleted read fuel (i+1) r
      | .error .otherError => .raised .otherError

/-! ### Teardown (_cleanup_failed_workspace, lines 468-525) -/

inductive LogEntry where
  | warning (msg : String)
  | error (msg : String)
  | info (msg : String)
deriving DecidableEq

inductive CleanupCall where
  | deleteDeployments
  | deleteServices
  | deleteConfigMaps
  | deletePvcs
  | deleteNamespace
deriving DecidableEq

/-- Outcomes of the five deletion calls and of each poll read, supplied by the
cluster. -/
structure CleanupOracle where
  deleteDeployments : Except K8sError Unit
  deleteServices : Except K8sError Unit
  deleteConfigMaps : Except K8sError Unit
  deletePvcs : Except K8sError Unit
  deleteNamespace : Except K8sError Unit
  readNamespace : Nat → Except K8sError Unit

/-- Each collection deletion sits in its own try/except that logs a warning and
continues (lines 472-502). -/
def best_effort_delete (step : Except K8sError Unit) (msg : String) : List LogEntry :=
  match step with
  | .ok _ => []
  | .error _ => [.warning msg]

/-- Log produced by the four best-effort collection deletions. -/
def cleanup_collection_log (o : CleanupOracle) : List LogEntry :=
  best_effort_delete o.deleteDeployments "Error deleting deployments during cleanup"
    ++ best_effort_delete o.deleteServices "Error deleting services during cleanup"
    ++ best_effort_delete o.deleteConfigMaps "Error deleting configmaps during cleanup"
    ++ best_effort_delete o.deletePvcs "Error deleting PVCs during cleanup"

/-- The five deletion calls are all issued, in source order, regardless of
individual failures. -/
def cleanup_call_list : List CleanupCall :=
  [.deleteDeployments, .deleteServices, .deleteConfigMaps, .deletePvcs, .deleteNamespace]

structure CleanupResult where
  log : List LogEntry
  calls : List CleanupCall
  terminated : Bool
deriving DecidableEq

/-- _cleanup_failed_workspace. The outer try/except (lines 470, 523-525)
catches every exception, logs it and does not re-raise, so the function always
returns normally; terminated = false is the model artifact for the poll loop
still spinning after fuel iterations. -/
def cleanup_failed_workspace (o : CleanupOracle) (fuel : Nat) : CleanupResult :=
  match o.deleteNamespace with
  | .error _ =>
    ⟨cleanup_collection_log o ++ [.error "Error during workspace cleanup"],
      cleanup_call_list, true⟩
  | .ok _ =>
    match poll_namespace_deleted o.readNamespace fuel 0 30 with
    | .fuelOut => ⟨cleanup_collection_log o, cleanup_call_list, false⟩
    | .raised _ =>
      ⟨cleanup_collection_log o ++ [.error "Error during workspace cleanup"],
        cleanup_call_list, true⟩
    | .finished 0 =>
      ⟨cleanup_collection_log o ++ [.error "Timeout waiting for namespace to be deleted"],
        cleanup_call_list, true⟩
    | .finished (_+1) =>
      ⟨cleanup_collection_log o ++ [.info "Successfully cleaned up workspace"],
        cleanup_call_list, true⟩

/-- A workspace already torn down: every deletion call and every namespace read
fails with a 404 ApiException. -/
def torn_down_oracle : CleanupOracle :=
  ⟨.error (.apiException 404), .error (.apiException 404), .error (.apiException 404),
    .error (.apiException 404), .error (.apiException 404),
    fun _ => .error (.apiException 404)⟩

/-- Namespace deletion accepted, first poll read already reports 404. -/
def poll_gone_oracle : CleanupOracle :=
  ⟨.ok (), .ok (), .ok (), .ok (), .ok (), fun _ => .error (.apiException 404)⟩

/-- Namespace deletion accepted, but every poll read fails with a non-404
ApiException (e.g. a persistent 500 from the API server). -/
def poll_stuck_oracle : CleanupOracle :=
  ⟨.ok (), .ok (), .ok (), .ok (), .ok (), fun _ => .error (.apiException 500)⟩

/-! ### The provisioning pipeline (initialize_workspace, lines 34-137)

The method is a straight-line sequence of resource creation calls inside one
try/except that logs and returns False; the two copy helpers
(_copy_port_detector_configmap, _copy_wildcard_certificate) swallow their own
exceptions (lines 294-295, 316-317) and never abort the pipeline. -/

inductive Res where
  | namespaceRes
  | workspacePvc
  | registryPvc
  | workspaceSecret
  | initScriptConfigMap
  | featureInstallConfigMap
  | workspaceInfoConfigMap
  | portDetectorConfigMap
  | wildcardCertSecret
  | registryCredsSecret
  | serviceAccount
  | deployment
  | service
  | ingress
deriving DecidableEq

inductive InitCall where
  | create (r : Res)
  | updateNamespaceLabels
  | cleanupWorkspace
deriving DecidableEq

/-- Success/failure of each creation call, supplied by the cluster. -/
structure InitOracle where
  okNamespace : Bool
  okWorkspacePvc : Bool
  okRegistryPvc : Bool
  okWorkspaceSecret : Bool
  okInitScriptCm : Bool
  okFeatureInstallCm : Bool
  okWorkspaceInfoCm : Bool
  okCopyPortDetector : Bool
  okCopyWildcardCert : Bool
  okRegistryCreds : Bool
  okServiceAccount : Bool
  okDeployment : Bool
  okService : Bool
  okIngress : Bool

structure InitStage where
  res : Res
  ok : Bool
  bestEffort : Bool
deriving DecidableEq

/-- The stages of initialize_workspace in source order (lines 76-126); the two
copy steps are the only best-effort ones. -/
def init_stages (o : InitOracle) : List InitStage :=
  [⟨.namespaceRes, o.okNamespace, false⟩,
   ⟨.workspacePvc, o.okWorkspacePvc, false⟩,
   ⟨.registryPvc, o.okRegistryPvc, false⟩,
   ⟨.workspaceSecret, o.okWorkspaceSecret, false⟩,
   ⟨.initScriptConfigMap, o.okInitScriptCm, false⟩,
   ⟨.featureInstallConfigMap, o.okFeatureInstallCm, false⟩,
   ⟨.workspaceInfoConfigMap, o.okWorkspaceInfoCm, false⟩,
   ⟨.portDetectorConfigMap, o.okCopyPortDetector, true⟩,
   ⟨.wildcardCertSecret, o.okCopyWildcardCert, true⟩,
   ⟨.registryCredsSecret, o.okRegistryCreds, false⟩,
   ⟨.serviceAccount, o.okServiceAccount, false⟩,
   ⟨.deployment, o.okDeployment, false⟩,
   ⟨.service, o.okService, false⟩,
   ⟨.ingress, o.okIngress, false⟩]

structure InitResult where
  success : Bool
  created : List Res
  calls : List InitCall
deriving DecidableEq

/-- Runs the stage list: a failing best-effort stage logs and continues; any
other failure propagates to the outer except, which returns False without
issuing further calls. No branch issues a cleanup or label-update call:
initialize_workspace never invokes _cleanup_failed_workspace and never patches
the namespace after creating it. -/
def run_stages : List InitStage → InitResult
  | [] => ⟨true, [], []⟩
  | s :: rest =>
    if s.ok then
      ⟨(run_stages rest).success, s.res :: (run_stages rest).created,
        .create s.res :: (run_stages rest).calls⟩
    else if s.bestEffort then
      ⟨(run_stages rest).success, (run_stages rest).created,
        .create s.res :: (run_stages rest).calls⟩
    else ⟨false, [], [.create s.res]⟩

/-- initialize_workspace, as observed through the cluster: the final return
value, the set of resources left in the cluster, and the calls issued. -/
def initialize_workspace (o : InitOracle) : InitResult :=
  run_stages (init_stages o)

/-- All creation calls succeed. -/
def all_ok_oracle : InitOracle :=
  ⟨true, true, true, true, true, true, true, true, true, true, true, true, true, true⟩

/-- Namespace creation succeeds, the workspace-data PVC creation fails
(e.g. quota exceeded), nothing after it is reached. -/
def pvc_failure_oracle : InitOracle :=
  ⟨true, false, true, true, true, true, true, true, true, true, true, true, true, true⟩

/-- Labels put on the namespace at creation (_create_namespace, lines 139-154). -/
def namespace_labels (workspaceId fqdn : String) (forPool : Bool) : List (String × String) :=
  [("workspace-id", workspaceId),
   ("app", "workspace"),
   ("initialization", "in-progress"),
   ("fqdn", fqdn),
   ("type", if forPool then "pool" else "workspace")]

/-- Labels of the namespace after initialize_workspace returns: the namespace
is created once with namespace_labels and no later stage patches it (no stage
of init_stages is a label update), so the labels are exactly the creation-time
ones whenever the namespace was created at all. -/
def final_namespace_labels (o : InitOracle) (workspaceId fqdn : String) (forPool : Bool) :
    Option (List (String × String)) :=
  if o.okNamespace then some (namespace_labels workspaceId fqdn forPool) else none

/-! ### The workspace-info ConfigMap (lines 251-274) and the code-server
container environment (lines 647-710) -/

inductive JsonVal where
  | str (v : String)
  | list (vs : List String)
deriving DecidableEq

/-- The info record serialized into the workspace-info ConfigMap, in source
order; created is datetime.now().isoformat() passed as a parameter. -/
def workspace_info_record (workspaceId : String) (githubUrls githubBranches : List String)
    (subdomain fqdn createdGenerated poolName password : String) : List (String × JsonVal) :=
  [("id", .str workspaceId),
   ("repositories", .list githubUrls),
   ("branches", .list githubBranches),
   ("subdomain", .str subdomain),
   ("fqdn", .str fqdn),
   ("url", .str ("https://" ++ fqdn)),
   ("created", .str createdGenerated),
   ("pool_name", .str poolName),
   ("password", .str password)]

inductive EnvValue where
  | lit (v : String)
  | secretKeyRef (secretName key : String)
deriving DecidableEq

structure EnvVar where
  name : String
  value : EnvValue
deriving DecidableEq

/-- Environment of the code-server container (_create_code_server_container).
The f-string for VSCODE_PROXY_URI renders the quadruple braces as a literal
brace pair around port. The PASSWORD variable is a secretKeyRef into
workspace-secret; no variable is built from the generated password value
(the dict passed to _create_deployment at lines 107-112 does not even contain
the password). -/
def code_server_env (subdomain workspaceDomain : String) : List EnvVar :=
  [⟨"PUID", .lit "1000"⟩,
   ⟨"PGID", .lit "1000"⟩,
   ⟨"TZ", .lit "UTC"⟩,
   ⟨"DEFAULT_WORKSPACE", .lit "/workspaces"⟩,
   ⟨"VSCODE_EXTENSIONS", .lit "/config/extensions"⟩,
   ⟨"CODE_SERVER_EXTENSIONS_DIR", .lit "/config/extensions"⟩,
   ⟨"VSCODE_USER_DATA_DIR", .lit "/config/data"⟩,
   ⟨"CS_DISABLE_GETTING_STARTED_OVERRIDE", .lit "true"⟩,
   ⟨"VSCODE_PROXY_URI",
     .lit ("https://" ++ subdomain ++ "-\x7b\x7bport\x7d\x7d." ++ workspaceDomain ++ "/")⟩,
   ⟨"PASSWORD", .secretKeyRef "workspace-secret" "password"⟩,
   ⟨"DOCKER_HOST", .lit "unix:///var/run/docker.sock"⟩]

/-! ### Extension extraction in the init script (lines 1157-1164)

  EXTENSIONS=$(jq -r ".extensions[]? // empty" ...)
  if [ -z "$EXTENSIONS" ]; then
      EXTENSIONS=$(jq -r ".customizations.vscode.extensions[]? // empty" ...)
  fi

jq streams the elements one per line; the shell command substitution strips
trailing newlines, and the -z test falls back exactly when the captured
primary output is the empty string. -/

def strip_trailing_newlines (s : String) : String :=
  String.mk ((s.data.reverse.dropWhile (fun c => c == '\n')).reverse)

/-- Output captured from a jq stream of the given raw strings. -/
def jq_stream_output (xs : List String) : String :=
  strip_trailing_newlines (String.join (xs.map (fun x => x ++ "\n")))

/-- The two extension list locations of the devcontainer descriptor: the
primary .extensions and the nested .customizations.vscode.extensions; none
means the key is absent (jq then streams nothing). -/
structure DevcontainerExtensions where
  primary : Option (List String)
  nested : Option (List String)

/-- The captured primary EXTENSIONS variable. -/
def extensions_shell_var (d : DevcontainerExtensions) : String :=
  jq_stream_output (d.primary.getD [])

/-- The EXTENSIONS value after the fallback test. -/
def selected_extensions (d : DevcontainerExtensions) : String :=
  if extensions_shell_var d = "" then jq_stream_output (d.nested.getD [])
  else extensions_shell_var d

/-! ### The feature installation script (lines 770-1079) -/

/-- Whether chars starts with pat. -/
def char_list_starts_with : List Char → List Char → Bool
  | [], _ => true
  | _ :: _, [] => false
  | p :: ps, c :: cs => p == c && char_list_starts_with ps cs

/-- Whether pat occurs anywhere in chars. -/
def char_list_has_sub : List Char → List Char → Bool
  | p, [] => p.isEmpty
  | p, c :: cs => char_list_starts_with p (c :: cs) || char_list_has_sub p cs

/-- feature_exists (lines 792-794): grep -q for the quoted feature id in the
features JSON. -/
def feature_exists (featuresJson feature : String) : Bool :=
  char_list_has_sub ("\"" ++ feature ++ "\"").data featuresJson.data

/-- The installation blocks of the script that would run for the given
features-file content, in source order (each block is gated on
feature_exists). -/
def feature_install_blocks (content : String) : List String :=
  (if feature_exists content "docker" then ["docker"] else [])
    ++ (if feature_exists content "docker-in-docker" || feature_exists content "docker-from-docker"
        then ["docker-in-docker"] else [])
    ++ (if feature_exists content "node" then ["node"] else [])
    ++ (if feature_exists content "python" then ["python"] else [])
    ++ (if feature_exists content "go" then ["go"] else [])
    ++ (if feature_exists content "java" then ["java"] else [])
    ++ (if feature_exists content "rust" then ["rust"] else [])
    ++ (if feature_exists content "dotnet" then ["dotnet"] else [])
    ++ (if feature_exists content "php" then ["php"] else [])
    ++ (if feature_exists content "common-utils" then ["common-utils"] else [])
    ++ (if feature_exists content "github-cli" then ["github-cli"] else [])
    ++ (if feature_exists content "azure-cli" then ["azure-cli"] else [])
    ++ (if feature_exists content "aws-cli" then ["aws-cli"] else [])
    ++ (if feature_exists content "terraform" then ["terraform"] else [])
    ++ (if feature_exists content "kubectl" || feature_exists content "kubernetes-tools"
        then ["kubectl"] else [])

structure FeatureInstallRun where
  exitCode : Nat
  printed : List String
  installed : List String
deriving DecidableEq

/-- The feature installation script (lines 774-786): when the features file is
absent it echoes the message and exits 0 before any installation block;
otherwise it prints the banner and runs the gated blocks. -/
def run_feature_install_script (featuresFile : Option String) : FeatureInstallRun :=
  match featuresFile with
  | none => ⟨0, ["No features file found, skipping feature installation"], []⟩
  | some content =>
    ⟨0,
      ["Installing dev container features from features file", "Features content:", content,
        "Feature installation completed"],
      feature_install_blocks content⟩

/-! ### The module-level workspace_config (lines 14-18) and the method-local
one (lines 66-71) -/

inductive ConfigVal where
  | str (v : String)
  | strs (vs : List String)
deriving DecidableEq

/-- The module-level default dictionary, lines 15-18. -/
def module_workspace_config : List (String × ConfigVal) :=
  [("github_branches", .strs ["main"]),
   ("github_urls", .strs [])]

/-- The dictionary bound by the assignment at lines 66-71 of
initialize_workspace. The assignment has no global declaration, so it binds a
fresh method-local name shadowing the module-level one. -/
def method_local_workspace_config (repoName branchName poolName : String) :
    List (String × ConfigVal) :=
  [("repo_name", .str repoName),
   ("github_urls", .strs ["https://github.com/" ++ repoName]),
   ("github_branches", .strs (if branchName = "" then ["main"] else [branchName])),
   ("pool_name", .str poolName)]

/-- The module globals relevant here: the single name workspace_config. -/
def module_globals : List (String × List (String × ConfigVal)) :=
  [("workspace_config", module_workspace_config)]

/-- Global rebinds performed by initialize_workspace: the method body contains
no global statement, so every assignment in it (including workspace_config at
line 66) is local and the list of global-frame writes is empty. -/
def initialize_workspace_global_rebinds : List (String × List (String × ConfigVal)) := []

/-- Applies a list of name rebinds to a global frame, later writes overriding. -/
def apply_rebinds {α : Type} (g : List (String × α)) (ws : List (String × α)) :
    List (String × α) :=
  ws.foldl (fun acc kv => acc.filter (fun p => p.1 != kv.1) ++ [kv]) g

/-- The module globals after any call to initialize_workspace. -/
def module_globals_after_init : List (String × List (String × ConfigVal)) :=
  apply_rebinds module_globals initialize_workspace_global_rebinds

/-! ## Theorems -/

/-- Helper: every call issued by the pipeline is a creation call; in
particular it never issues a cleanup or a namespace-label update. -/
theorem run_stages_calls_are_creates (l : List InitStage) :
    ∀ c ∈ (run_stages l).calls, ∃ r, c = InitCall.create r := by
  induction l with
  | nil => intro c hc; simp [run_stages] at hc
  | cons s rest ih =>
    intro c hc
    by_cases hok : s.ok
    · simp only [run_stages, hok, if_true] at hc
      rcases List.mem_cons.mp hc with h | h
      · exact ⟨s.res, h⟩
      · exact ih c h
    · by_cases hbe : s.bestEffort
      · simp only [run_stages, hok, hbe, if_true, if_false] at hc
        rcases List.mem_cons.mp hc with h | h
        · exact ⟨s.res, h⟩
        · exact ih c h
      · simp only [run_stages, hok, hbe, if_false] at hc
        rcases List.mem_cons.mp hc with h | h
        · exact ⟨s.res, h⟩
        · simp at h

/-- C4: for every workspace, the wrapper build destination tag and the base
build destination tag embed exactly the same namespace-name/build-timestamp
suffix, and both the wrapper build BASE_IMAGE reference and the FROM line of
the generated wrapper Dockerfile equal the base build destination tag. -/
theorem c4_build_tag_referential_consistency (aws ns ts : String) :
    base_image_destination aws ns ts =
      (aws ++ ".dkr.ecr.us-east-1.amazonaws.com/workspace-images:custom-user-")
        ++ (ns ++ "-" ++ ts)
    ∧ wrapper_image_destination aws ns ts =
      (aws ++ ".dkr.ecr.us-east-1.amazonaws.com/workspace-images:custom-wrapper-")
        ++ (ns ++ "-" ++ ts)
    ∧ wrapper_base_image_env aws ns ts = base_image_destination aws ns ts
    ∧ wrapper_dockerfile_from_line aws ns ts = "FROM " ++ base_image_destination aws ns ts := by
  refine ⟨?_, ?_, rfl, ?_⟩ <;>
    simp [base_image_destination, wrapper_image_destination, wrapper_dockerfile_from_line,
      String.append_assoc]

/-- C8: a generated subdomain of the default length is exactly 8 characters,
each a lowercase letter or a decimal digit, for every behavior of the random
choice. -/
theorem c8_subdomain_shape (choice : Nat → Fin subdomain_letters.length) :
    (generate_random_subdomain choice 8).length = 8
    ∧ ∀ c ∈ (generate_random_subdomain choice 8).data,
        c.isLower = true ∨ c.isDigit = true := by
  constructor
  · simp [generate_random_subdomain, String.length]
  · intro c hc
    have hc' : c ∈ (List.range 8).map (fun i => subdomain_letters.get (choice i)) := hc
    obtain ⟨i, _, rfl⟩ := List.mem_map.mp hc'
    have hmem : subdomain_letters.get (choice i) ∈ subdomain_letters :=
      List.get_mem subdomain_letters (choice i).1 (choice i).2
    have hall : ∀ x ∈ subdomain_letters, x.isLower = true ∨ x.isDigit = true := by decide
    exact hall _ hmem

/-- C8 witness: evaluated at a concrete choice function. -/
theorem c8_subdomain_shape_witness :
    (generate_random_subdomain (fun _ => ⟨0, by decide⟩) 8).length = 8
    ∧ ∀ c ∈ (generate_random_subdomain (fun _ => ⟨0, by decide⟩) 8).data,
        c.isLower = true ∨ c.isDigit = true :=
  c8_subdomain_shape (fun _ => ⟨0, by decide⟩)

/-- C1: evaluating initialize_workspace at the failing input where namespace
creation succeeds and the workspace-data PVC creation fails: the call returns
False with exactly the namespace left in the cluster (an intermediate state),
and the calls issued are exactly the two creation attempts: in particular
_cleanup_failed_workspace is never invoked, contradicting the all-or-nothing
teardown the claim states. -/
theorem c1_no_teardown_on_failure :
    initialize_workspace pvc_failure_oracle =
      ⟨false, [Res.namespaceRes],
        [InitCall.create Res.namespaceRes, InitCall.create Res.workspacePvc]⟩ := by
  decide

/-- C2 counterexample: on an all-successful run, initialize_workspace reports
success while the namespace labels are exactly the creation-time ones: the
lifecycle key initialization holds in-progress (not initializing), no label
ever holds ready, and the calls issued contain no label update at all, so no
transition to ready has happened. -/
theorem c2_counterexample :
    (initialize_workspace all_ok_oracle).success = true
    ∧ final_namespace_labels all_ok_oracle "ws1" "abc12345.example.com" false =
        some [("workspace-id", "ws1"), ("app", "workspace"),
          ("initialization", "in-progress"), ("fqdn", "abc12345.example.com"),
          ("type", "workspace")]
    ∧ (initialize_workspace all_ok_oracle).calls =
        [InitCall.create Res.namespaceRes, InitCall.create Res.workspacePvc,
         InitCall.create Res.registryPvc, InitCall.create Res.workspaceSecret,
         InitCall.create Res.initScriptConfigMap, InitCall.create Res.featureInstallConfigMap,
         InitCall.create Res.workspaceInfoConfigMap, InitCall.create Res.portDetectorConfigMap,
         InitCall.create Res.wildcardCertSecret, InitCall.create Res.registryCredsSecret,
         InitCall.create Res.serviceAccount, InitCall.create Res.deployment,
         InitCall.create Res.service, InitCall.create Res.ingress] := by
  decide

/-- C2 (amended): the namespace is created with the lifecycle label
initialization = in-progress, initialize_workspace never issues a label
update, and a successful run leaves the labels exactly as created. -/
theorem c2_lifecycle_label (o : InitOracle) (wid fqdn : String) (fp : Bool) :
    (namespace_labels wid fqdn fp).lookup "initialization" = some "in-progress"
    ∧ InitCall.updateNamespaceLabels ∉ (initialize_workspace o).calls
    ∧ ((initialize_workspace o).success = true →
        final_namespace_labels o wid fqdn fp = some (namespace_labels wid fqdn fp)) := by
  refine ⟨rfl, ?_, ?_⟩
  · intro hmem
    obtain ⟨r, hr⟩ := run_stages_calls_are_creates _ _ hmem
    exact InitCall.noConfusion hr
  · intro hs
    cases hno : o.okNamespace with
    | false =>
      exfalso
      simp [initialize_workspace, init_stages, run_stages, hno] at hs
    | true => simp [final_namespace_labels, hno]

/-- C2 witness: the amended theorem applied at the all-successful oracle. -/
theorem c2_lifecycle_label_witness :
    (initialize_workspace all_ok_oracle).success = true
    ∧ final_namespace_labels all_ok_oracle "ws1" "sub.example.com" false =
        some (namespace_labels "ws1" "sub.example.com" false) :=
  ⟨by decide, (c2_lifecycle_label all_ok_oracle "ws1" "sub.example.com" false).2.2 (by decide)⟩

/-- C3 counterexample: the workspace-info ConfigMap record produced by
provisioning maps the key password to the generated plaintext password, so the
credential is embedded in plaintext configuration. -/
theorem c3_counterexample :
    (workspace_info_record "ws1" ["https://github.com/org/sample"] ["main"]
        "abc12345" "abc12345.example.com" "2026-01-01T00:00:00" "pool-a"
        "s3cretpw4567").lookup "password" = some (JsonVal.str "s3cretpw4567") := by
  decide

/-- C3 (amended): the running environment does source the credential from the
secret: the code-server container carries PASSWORD as a secretKeyRef into
workspace-secret, and every env var named PASSWORD is that reference; but the
workspace-info configuration bundle embeds the generated password in
plaintext. -/
theorem c3_password_handling (subdomain domain wid : String) (urls branches : List String)
    (fqdn createdGenerated poolName password : String) :
    EnvVar.mk "PASSWORD" (.secretKeyRef "workspace-secret" "password")
        ∈ code_server_env subdomain domain
    ∧ (∀ e ∈ code_server_env subdomain domain, e.name = "PASSWORD" →
        e.value = .secretKeyRef "workspace-secret" "password")
    ∧ ("password", JsonVal.str password)
        ∈ workspace_info_record wid urls branches subdomain fqdn createdGenerated
            poolName password := by
  refine ⟨by simp [code_server_env], ?_, by simp [workspace_info_record]⟩
  intro e he
  simp only [code_server_env, List.mem_cons, List.not_mem_nil, or_false] at he
  rcases he with rfl | rfl | rfl | rfl | rfl | rfl | rfl | rfl | rfl | rfl | rfl <;>
    intro h <;> first
    | rfl
    | simp at h

/-- C3 witness: the amended theorem applied at concrete inputs. -/
theorem c3_password_handling_witness :
    EnvVar.mk "PASSWORD" (.secretKeyRef "workspace-secret" "password")
        ∈ code_server_env "abc12345" "example.com"
    ∧ (∀ e ∈ code_server_env "abc12345" "example.com", e.name = "PASSWORD" →
        e.value = .secretKeyRef "workspace-secret" "password")
    ∧ ("password", JsonVal.str "s3cretpw4567")
        ∈ workspace_info_record "ws1" ["https://github.com/org/sample"] ["main"]
            "abc12345" "abc12345.example.com" "2026-01-01T00:00:00" "pool-a"
            "s3cretpw4567" :=
  c3_password_handling "abc12345" "example.com" "ws1" ["https://github.com/org/sample"]
    ["main"] "abc12345.example.com" "2026-01-01T00:00:00" "pool-a" "s3cretpw4567"

/-- Helper for C5: when every poll read either finds the namespace or gets a
404 ApiException, the loop leaves within its retry budget: it never spins past
fuel exceeding the remaining retries. -/
theorem poll_no_fuel_out (read : Nat → Except K8sError Unit)
    (h : ∀ i, read i = .ok () ∨ read i = .error (.apiException 404)) :
    ∀ fuel i r, r < fuel → poll_namespace_deleted read fuel i r ≠ PollOutcome.fuelOut := by
  intro fuel
  induction fuel with
  | zero => intro i r hr; exact absurd hr (Nat.not_lt_zero r)
  | succ fuel ih =>
    intro i r hr
    by_cases hr0 : r = 0
    · simp [poll_namespace_deleted, hr0]
    · rcases h i with hok | h404
      · simpa [poll_namespace_deleted, hr0, hok] using ih (i+1) (r-1) (by omega)
      · simp [poll_namespace_deleted, hr0, h404]

/-- Helper for C5: if the first r reads all find the namespace, the loop
consumes exactly its r retries and exits with none left. -/
theorem poll_all_ok_times_out (read : Nat → Except K8sError Unit) :
    ∀ r i, (∀ j, j < i + r → read j = .ok ()) →
      poll_namespace_deleted read (r+1) i r = PollOutcome.finished 0 := by
  intro r
  induction r with
  | zero => intro i _; simp [poll_namespace_deleted]
  | succ r ih =>
    intro i h
    have hi : read i = .ok () := h i (by omega)
    have hrec := ih (i+1) (fun j hj => h j (by omega))
    simpa [poll_namespace_deleted, hi] using hrec

/-- C5 counterexample: namespace deletion is accepted but every poll read
fails with a 500 ApiException; the loop is still spinning after 62 iterations
(any run respecting the 30-retry bound exits within 31), so teardown does not
always terminate after at most 30 retries. -/
theorem c5_counterexample :
    (cleanup_failed_workspace poll_stuck_oracle 62).terminated = false := by
  decide

/-- C5 (amended): after requesting namespace deletion, provided every poll
read either finds the namespace or fails with 404, teardown terminates within
31 loop iterations; if the first 30 reads all find the namespace the retry
budget is exhausted and a teardown timeout is logged without further retrying,
and if a read reports 404 the loop stops early and cleanup reports success.
A read failing with a non-404 ApiException, however, is retried without
decrementing the retry counter (hence the counterexample). -/
theorem c5_poll_bounded (o : CleanupOracle)
    (hns : o.deleteNamespace = .ok ())
    (h : ∀ i, o.readNamespace i = .ok ()
          ∨ o.readNamespace i = .error (.apiException 404)) :
    (cleanup_failed_workspace o 31).terminated = true
    ∧ ((∀ i, i < 30 → o.readNamespace i = .ok ()) →
        LogEntry.error "Timeout waiting for namespace to be deleted"
          ∈ (cleanup_failed_workspace o 31).log)
    ∧ (o.readNamespace 0 = .error (.apiException 404) →
        LogEntry.info "Successfully cleaned up workspace"
          ∈ (cleanup_failed_workspace o 31).log) := by
  refine ⟨?_, ?_, ?_⟩
  · have hnf := poll_no_fuel_out o.readNamespace h 31 0 30 (by omega)
    rcases hp : poll_namespace_deleted o.readNamespace 31 0 30 with r | e | _
    · rcases r with _ | r <;> simp [cleanup_failed_workspace, hns, hp]
    · simp [cleanup_failed_workspace, hns, hp]
    · exact absurd hp hnf
  · intro hall
    have hp : poll_namespace_deleted o.readNamespace 31 0 30 = PollOutcome.finished 0 :=
      poll_all_ok_times_out o.readNamespace 30 0 (fun j hj => hall j (by omega))
    simp [cleanup_failed_workspace, hns, hp]
  · intro h0
    have hp : poll_namespace_deleted o.readNamespace 31 0 30 = PollOutcome.finished 30 := by
      simp [poll_namespace_deleted, h0]
    simp [cleanup_failed_workspace, hns, hp]

/-- C5 witness: the amended theorem applied at the oracle whose first poll
read already reports 404. -/
theorem c5_poll_bounded_witness :
    poll_gone_oracle.deleteNamespace = .ok ()
    ∧ (∀ i, poll_gone_oracle.readNamespace i = .ok ()
        ∨ poll_gone_oracle.readNamespace i = .error (.apiException 404))
    ∧ ((cleanup_failed_workspace poll_gone_oracle 31).terminated = true
      ∧ ((∀ i, i < 30 → poll_gone_oracle.readNamespace i = .ok ()) →
          LogEntry.error "Timeout waiting for namespace to be deleted"
            ∈ (cleanup_failed_workspace poll_gone_oracle 31).log)
      ∧ (poll_gone_oracle.readNamespace 0 = .error (.apiException 404) →
          LogEntry.info "Successfully cleaned up workspace"
            ∈ (cleanup_failed_workspace poll_gone_oracle 31).log)) :=
  ⟨rfl, fun _ => Or.inr rfl,
    c5_poll_bounded poll_gone_oracle rfl (fun _ => Or.inr rfl)⟩

/-- C6: given a descriptor where the captured primary extensions output is
nonempty, the selection uses the primary list and the nested list is ignored
(the result does not depend on it); given an absent or empty primary list, the
nested list is used. -/
theorem c6_extension_precedence (p n : List String)
    (hp : jq_stream_output p ≠ "") :
    selected_extensions ⟨some p, some n⟩ = jq_stream_output p
    ∧ (∀ n', selected_extensions ⟨some p, some n'⟩ = selected_extensions ⟨some p, some n⟩)
    ∧ (∀ m, selected_extensions ⟨none, some m⟩ = jq_stream_output m)
    ∧ (∀ m, selected_extensions ⟨some [], some m⟩ = jq_stream_output m) := by
  have hempty : jq_stream_output ([] : List String) = "" := by decide
  refine ⟨?_, ?_, ?_, ?_⟩
  · simp [selected_extensions, extensions_shell_var, hp]
  · intro n'; simp [selected_extensions, extensions_shell_var, hp]
  · intro m; simp [selected_extensions, extensions_shell_var, hempty]
  · intro m; simp [selected_extensions, extensions_shell_var, hempty]

/-- C6 witness: the precedence theorem applied with both lists populated. -/
theorem c6_extension_precedence_witness :
    jq_stream_output ["ms-python.python"] ≠ ""
    ∧ (selected_extensions ⟨some ["ms-python.python"], some ["other.ext"]⟩ =
        jq_stream_output ["ms-python.python"]
      ∧ (∀ n', selected_extensions ⟨some ["ms-python.python"], some n'⟩ =
          selected_extensions ⟨some ["ms-python.python"], some ["other.ext"]⟩)
      ∧ (∀ m, selected_extensions ⟨none, some m⟩ = jq_stream_output m)
      ∧ (∀ m, selected_extensions ⟨some [], some m⟩ = jq_stream_output m)) :=
  ⟨by decide, c6_extension_precedence ["ms-python.python"] ["other.ext"] (by decide)⟩

/-- C7: when the features file is absent at container start, the feature
installation script exits 0, prints the no-features message, and runs no
installation block. -/
theorem c7_feature_script_absent :
    run_feature_install_script none =
      ⟨0, ["No features file found, skipping feature installation"], []⟩ := by
  decide

/-- C9: invoking teardown on a workspace whose resources are already gone
(every deletion call fails) completes without raising: each of the four
collection deletions logs its warning and the next step still runs (all five
deletion calls are issued), the failing namespace deletion is caught by the
outer handler which logs and returns normally. -/
theorem c9_teardown_idempotent (o : CleanupOracle) (fuel : Nat)
    (e1 e2 e3 e4 e5 : K8sError)
    (h1 : o.deleteDeployments = .error e1) (h2 : o.deleteServices = .error e2)
    (h3 : o.deleteConfigMaps = .error e3) (h4 : o.deletePvcs = .error e4)
    (h5 : o.deleteNamespace = .error e5) :
    cleanup_failed_workspace o fuel =
      ⟨[.warning "Error deleting deployments during cleanup",
        .warning "Error deleting services during cleanup",
        .warning "Error deleting configmaps during cleanup",
        .warning "Error deleting PVCs during cleanup",
        .error "Error during workspace cleanup"],
       [.deleteDeployments, .deleteServices, .deleteConfigMaps, .deletePvcs,
        .deleteNamespace],
       true⟩ := by
  simp [cleanup_failed_workspace, cleanup_collection_log, cleanup_call_list,
    best_effort_delete, h1, h2, h3, h4, h5]

/-- C9 witness: teardown applied to the already-torn-down oracle (every call
404s). -/
theorem c9_teardown_idempotent_witness :
    torn_down_oracle.deleteDeployments = .error (.apiException 404)
    ∧ torn_down_oracle.deleteNamespace = .error (.apiException 404)
    ∧ cleanup_failed_workspace torn_down_oracle 1 =
      ⟨[.warning "Error deleting deployments during cleanup",
        .warning "Error deleting services during cleanup",
        .warning "Error deleting configmaps during cleanup",
        .warning "Error deleting PVCs during cleanup",
        .error "Error during workspace cleanup"],
       [.deleteDeployments, .deleteServices, .deleteConfigMaps, .deletePvcs,
        .deleteNamespace],
       true⟩ :=
  ⟨rfl, rfl,
    c9_teardown_idempotent torn_down_oracle 1 _ _ _ _ _ rfl rfl rfl rfl rfl⟩

/-- C10: the module-level workspace_config dictionary is unchanged by any call
to initialize_workspace: the method performs no global rebind, the module
globals after the call still bind workspace_config to the import-time default
mapping github_branches to the singleton main and github_urls to the empty
list, while the fresh method-local dictionary of the same name is a different
record (it has a repo_name key the module-level one lacks). -/
theorem c10_global_config_untouched (repoName branchName poolName : String) :
    module_globals_after_init = module_globals
    ∧ module_globals_after_init.lookup "workspace_config" = some module_workspace_config
    ∧ module_workspace_config.lookup "github_branches" = some (.strs ["main"])
    ∧ module_workspace_config.lookup "github_urls" = some (.strs [])
    ∧ (method_local_workspace_config repoName branchName poolName).lookup "repo_name" =
        some (.str repoName)
    ∧ module_workspace_config.lookup "repo_name" = none := by
  exact ⟨rfl, rfl, rfl, rfl, rfl, rfl⟩

end WorkspaceInit
